import Mathlib

set_option maxRecDepth 16384

/-!
Shallow embedding of `src/contrib/notify-send.py` (the Tinct notify-send
output plugin).  Python dictionaries parsed from JSON are modelled as
association lists `List (String × Json)` with unique keys (which is what
`json.load` produces), JSON values as the inductive `Json` below, and a
raised Python exception as `Option.none` of the function's result type.
An uncaught exception terminates the interpreter with a nonzero exit
status, so `none` for a whole-run model means "did not exit 0".
Apostrophes inside modelled output strings are written via
`Char.ofNat 39` and braces via escape codes, for purely lexical reasons.
-/

/-- JSON values as produced by `json.load`.  Numbers are modelled as
integers: every numeric field the plugin inspects (`theme_type`,
`timeout`) is integral. -/
inductive Json where
  | null
  | bool (b : Bool)
  | num (n : Int)
  | str (s : String)
  | arr (xs : List Json)
  | obj (kvs : List (String × Json))

/-- Python truthiness (`bool(x)`) for the modelled JSON values. -/
def pyTruthy : Json → Bool
  | Json.null => false
  | Json.bool b => b
  | Json.num n => n != 0
  | Json.str s => s != ""
  | Json.arr xs => !xs.isEmpty
  | Json.obj kvs => !kvs.isEmpty

/-- Python `x or d`: `x` when truthy, otherwise `d`. -/
def pyOr (v d : Json) : Json := if pyTruthy v then v else d

/-- Python `dict.get(k, dflt)` on an association list with unique keys. -/
def dictGet (d : List (String × Json)) (k : String) (dflt : Json) : Json :=
  (d.lookup k).getD dflt

/-- Python `.upper()` on a string, modelled character by character
(ASCII case mapping, which covers hex colour strings). -/
def pyUpperStr (s : String) : String := String.mk (s.data.map Char.toUpper)

/-- Python `str.title()` (ASCII): a letter is uppercased when the
previous character is not a letter, lowercased otherwise.  The flag
carries "previous character was a letter". -/
def pyTitleAux : Bool → List Char → List Char
  | _, [] => []
  | prevAlpha, c :: cs =>
    (if c.isAlpha then (if prevAlpha then c.toLower else c.toUpper) else c)
      :: pyTitleAux c.isAlpha cs

/-- Python `s.title()`. -/
def pyTitle (s : String) : String := String.mk (pyTitleAux false s.data)

/-- The apostrophe character, written numerically for lexical reasons. -/
def aposC : Char := Char.ofNat 39

/-- Wrap a string in single quotes, as the plugin's error messages do. -/
def squote (s : String) : String :=
  String.singleton aposC ++ s ++ String.singleton aposC

/- Structural size of a JSON value, used as fuel for the (depth-bounded)
rendering helpers below: it strictly dominates the nesting depth. -/
mutual
def jsize : Json → Nat
  | Json.null => 1
  | Json.bool _ => 1
  | Json.num _ => 1
  | Json.str _ => 1
  | Json.arr xs => 1 + jsizeL xs
  | Json.obj kvs => 1 + jsizeP kvs
def jsizeL : List Json → Nat
  | [] => 0
  | x :: xs => 1 + jsize x + jsizeL xs
def jsizeP : List (String × Json) → Nat
  | [] => 0
  | p :: ps => 1 + jsize p.2 + jsizeP ps
end

/-- One hexadecimal digit (lowercase), used by the string-escape models. -/
def hexDigit (n : Nat) : Char :=
  if n < 10 then Char.ofNat (48 + n) else Char.ofNat (87 + (n % 16))

/-- Two-digit lowercase hex rendering of `n % 256`. -/
def hex2 (n : Nat) : String :=
  String.mk [hexDigit ((n / 16) % 16), hexDigit (n % 16)]

/-- Four-digit lowercase hex rendering of `n % 65536`. -/
def hex4 (n : Nat) : String :=
  String.mk [hexDigit ((n / 4096) % 16), hexDigit ((n / 256) % 16),
    hexDigit ((n / 16) % 16), hexDigit (n % 16)]

/-- Escape one character the way `json.dumps` (default `ensure_ascii`)
does: quote, backslash and control characters get short or `\uXXXX`
escapes, characters above ASCII get `\uXXXX` (with surrogate pairs
beyond the BMP), the rest stay verbatim. -/
def jsonEscapeChar (c : Char) : String :=
  if c = Char.ofNat 34 then "\\\""
  else if c = Char.ofNat 92 then "\\\\"
  else if c = Char.ofNat 10 then "\\n"
  else if c = Char.ofNat 13 then "\\r"
  else if c = Char.ofNat 9 then "\\t"
  else if c = Char.ofNat 8 then "\\b"
  else if c = Char.ofNat 12 then "\\f"
  else if c.toNat < 32 then "\\u" ++ hex4 c.toNat
  else if c.toNat < 127 then String.singleton c
  else if c.toNat < 65536 then "\\u" ++ hex4 c.toNat
  else
    "\\u" ++ hex4 (55296 + (c.toNat - 65536) / 1024)
      ++ "\\u" ++ hex4 (56320 + (c.toNat - 65536) % 1024)

/-- Escape a whole string for a JSON string literal. -/
def jsonEscape (s : String) : String := String.join (s.data.map jsonEscapeChar)

/-- Indentation used by `json.dumps(..., indent=2)` at nesting level `lvl`. -/
def dumpIndent (lvl : Nat) : String := String.mk (List.replicate (2 * lvl) ' ')

/-- Fuel-indexed model of `json.dumps(v, indent=2)`.  The fuel only
serves the termination checker; it is always called with fuel larger
than the nesting depth (see `pyJsonDumps`), so the `0` case is never
reached on actual values. -/
def dumpsF : Nat → Nat → Json → String
  | 0, _, _ => ""
  | _ + 1, _, Json.null => "null"
  | _ + 1, _, Json.bool true => "true"
  | _ + 1, _, Json.bool false => "false"
  | _ + 1, _, Json.num n => toString n
  | _ + 1, _, Json.str s => "\"" ++ jsonEscape s ++ "\""
  | _ + 1, _, Json.arr [] => "[]"
  | fuel + 1, lvl, Json.arr (x :: xs) =>
    "[\n" ++ String.intercalate ",\n"
        (((x :: xs).map (fun v => dumpIndent (lvl + 1) ++ dumpsF fuel (lvl + 1) v)))
      ++ "\n" ++ dumpIndent lvl ++ "]"
  | _ + 1, _, Json.obj [] => "\x7b\x7d"
  | fuel + 1, lvl, Json.obj (p :: ps) =>
    "\x7b\n" ++ String.intercalate ",\n"
        (((p :: ps).map (fun q =>
          dumpIndent (lvl + 1) ++ "\"" ++ jsonEscape q.1 ++ "\": "
            ++ dumpsF fuel (lvl + 1) q.2)))
      ++ "\n" ++ dumpIndent lvl ++ "\x7d"

/-- Python `json.dumps(v, indent=2)`.  `jsize v` strictly dominates the
nesting depth of `v`, so the fuel never runs out. -/
def pyJsonDumps (v : Json) : String := dumpsF (jsize v) 0 v

/-- Python `repr` of a string (ASCII fragment): single quotes unless the
string contains a single quote but no double quote; backslash, the
chosen quote and control characters are escaped. -/
def pyReprStr (s : String) : String :=
  let q : Char := if s.contains aposC && !s.contains (Char.ofNat 34)
    then Char.ofNat 34 else aposC
  let esc : Char → String := fun c =>
    if c = Char.ofNat 92 then "\\\\"
    else if c = q then "\\" ++ String.singleton q
    else if c = Char.ofNat 10 then "\\n"
    else if c = Char.ofNat 13 then "\\r"
    else if c = Char.ofNat 9 then "\\t"
    else if c.toNat < 32 || c.toNat = 127 then "\\x" ++ hex2 c.toNat
    else String.singleton c
  String.singleton q ++ String.join (s.data.map esc) ++ String.singleton q

/-- Fuel-indexed model of Python `repr` on the modelled JSON values
(lists and dicts render with brackets, braces, `, ` separators and
`: ` between key and value, exactly as CPython prints containers of
such values). -/
def pyReprF : Nat → Json → String
  | 0, _ => ""
  | _ + 1, Json.null => "None"
  | _ + 1, Json.bool true => "True"
  | _ + 1, Json.bool false => "False"
  | _ + 1, Json.num n => toString n
  | _ + 1, Json.str s => pyReprStr s
  | fuel + 1, Json.arr xs =>
    "[" ++ String.intercalate ", " (xs.map (pyReprF fuel)) ++ "]"
  | fuel + 1, Json.obj kvs =>
    "\x7b" ++ String.intercalate ", "
        (kvs.map (fun p => pyReprStr p.1 ++ ": " ++ pyReprF fuel p.2))
      ++ "\x7d"

/-- Python `str(v)` for the modelled JSON values: strings render
verbatim, scalars as CPython prints them, containers via `repr`. -/
def pyStr : Json → String
  | Json.null => "None"
  | Json.bool true => "True"
  | Json.bool false => "False"
  | Json.num n => toString n
  | Json.str s => s
  | Json.arr xs => pyReprF (jsize (Json.arr xs)) (Json.arr xs)
  | Json.obj kvs => pyReprF (jsize (Json.obj kvs)) (Json.obj kvs)

example : pyTitle "auto" = "Auto" := by decide
example : pyTitle "unknown" = "Unknown" := by decide
example : pyUpperStr "#abc123" = "#ABC123" := by decide
example : pyJsonDumps (Json.obj [("a", Json.num 1), ("b", Json.arr [Json.str "x"])])
    = "\x7b\n  \"a\": 1,\n  \"b\": [\n    \"x\"\n  ]\n\x7d" := by decide

/-- The module-level `PLUGIN_INFO` dictionary of the plugin, verbatim. -/
def pluginInfo : List (String × Json) :=
  [("name", Json.str "notify-send"),
   ("type", Json.str "output"),
   ("version", Json.str "1.0.1"),
   ("description", Json.str "Send desktop notifications with colour palette information"),
   ("enabled", Json.bool false),
   ("author", Json.str "Tinct Contributors"),
   ("requires", Json.arr [Json.str "notify-send"])]

/-- Python `k in v` for a string key `k`: key membership on dicts,
substring test on strings, element equality on lists; on numbers,
booleans and `None` the `in` operator raises `TypeError` (`none`). -/
def pyContains (k : String) : Json → Option Bool
  | Json.obj kvs => some (kvs.lookup k).isSome
  | Json.str s => some (if k = "" then true else 2 ≤ (s.splitOn k).length)
  | Json.arr xs => some (xs.any (fun x => match x with
      | Json.str s => s == k
      | _ => false))
  | _ => none

/-- Python `v[k]` for a string key: lookup on dicts (`KeyError` when the
key is missing), `TypeError` on everything else — both modelled as `none`. -/
def pySubscript : Json → String → Option Json
  | Json.obj kvs, k => kvs.lookup k
  | _, _ => none

/-- Python `v.get(k, dflt)`: defined on dicts only; on any other value
the attribute access raises `AttributeError` (`none`). -/
def pyDictGet : Json → String → Json → Option Json
  | Json.obj kvs, k, dflt => some ((kvs.lookup k).getD dflt)
  | _, _, _ => none

/-- Python `v.upper()`: defined on strings only; `AttributeError`
(`none`) otherwise. -/
def pyUpperJ : Json → Option String
  | Json.str s => some (pyUpperStr s)
  | _ => none

/-- Python `len(v)`: defined on strings, lists and dicts; `TypeError`
(`none`) on numbers, booleans and `None`. -/
def pyLen : Json → Option Nat
  | Json.str s => some s.length
  | Json.arr xs => some xs.length
  | Json.obj kvs => some kvs.length
  | _ => none

/-- The argument-type check `subprocess.run` (and `str.join`) performs:
every command-line element must be a string. -/
def asPyStr : Json → Option String
  | Json.str s => some s
  | _ => none

/-- Python `" ".join(cmd)`: `TypeError` (`none`) unless every element is
a string. -/
def pyJoinSpace (cmd : List Json) : Option String :=
  (cmd.mapM asPyStr).map (String.intercalate " ")

/-- The dictionary lookup `theme_map.get(theme_type, "unknown")` with
`theme_map = {0: "auto", 1: "dark", 2: "light"}`.  Python equates
`False`/`True` with `0`/`1` as dict keys; lists and dicts are
unhashable, so using them as a lookup key raises `TypeError` (`none`). -/
def themeMapGet : Json → Option String
  | Json.num n => some (if n = 0 then "auto" else if n = 1 then "dark"
      else if n = 2 then "light" else "unknown")
  | Json.bool b => some (if b then "dark" else "auto")
  | Json.str _ => some "unknown"
  | Json.null => some "unknown"
  | _ => none

/-- The resolved theme label:
`theme_map.get(theme_type, "unknown").title()`. -/
def theme_label (t : Json) : Option String := (themeMapGet t).map pyTitle

/-- The `role_order` list of `(role_key, role_label)` pairs, verbatim
from `send_notification`. -/
def role_order : List (String × String) :=
  [("background", "Background"),
   ("backgroundMuted", "Background Muted"),
   ("foreground", "Foreground"),
   ("foregroundMuted", "Foreground Muted"),
   ("accent1", "Accent 1"),
   ("accent2", "Accent 2"),
   ("accent3", "Accent 3"),
   ("accent4", "Accent 4"),
   ("danger", "Danger"),
   ("warning", "Warning"),
   ("success", "Success"),
   ("info", "Info"),
   ("notification", "Notification")]

/-- The `for role_key, role_label in role_order:` loop: for each role
present in `colors`, read `colors[role_key].get("hex", "").upper()` and
append `"  <label>: <hex>"` when the hex is non-empty and `show_hex` is
truthy.  Any of the chained operations can raise (`none`). -/
def roleLines (colors showHex : Json) : List (String × String) → Option (List String)
  | [] => some []
  | (rk, rl) :: rest => do
    let present ← pyContains rk colors
    if present then do
      let colorData ← pySubscript colors rk
      let hexRaw ← pyDictGet colorData "hex" (Json.str "")
      let hex ← pyUpperJ hexRaw
      let restLines ← roleLines colors showHex rest
      if hex ≠ "" ∧ pyTruthy showHex then
        pure (("  " ++ rl ++ ": " ++ hex) :: restLines)
      else
        pure restLines
    else
      roleLines colors showHex rest

/-- The `if all_colors and show_count:` block appending
`"\nTotal colours extracted: <len(all_colors)>"`; `len` raises on
numbers/booleans (`none`). -/
def countLines (allColors showCount : Json) : Option (List String) :=
  if pyTruthy allColors && pyTruthy showCount then
    (pyLen allColors).map (fun n => ["\nTotal colours extracted: " ++ toString n])
  else
    some []

/-- The `if "message" in plugin_args:` block appending
`"\n<plugin_args[message]>"` (f-string, so `str()` of the value). -/
def messageLines (pluginArgs : List (String × Json)) : List String :=
  match pluginArgs.lookup "message" with
  | some v => ["\n" ++ pyStr v]
  | none => []

/-- Title construction: the `title_prefix`-based composition, overridden
verbatim by an explicit `title` entry when present. -/
def mkTitle (theme_str : String) (pluginArgs : List (String × Json)) : Json :=
  let tp := dictGet pluginArgs "title_prefix" (Json.str "")
  let base : String :=
    if pyTruthy tp then
      pyStr tp ++ " Tinct Colour Palette (" ++ theme_str ++ " Theme)"
    else
      "Tinct Colour Palette (" ++ theme_str ++ " Theme)"
  match pluginArgs.lookup "title" with
  | some v => v
  | none => Json.str base

/-- Construction of the `notify-send` command list: `-a`/`-i` pairs only
when `app_name`/`icon` are truthy, then `-u`, `-t str(timeout)`, the
title and the body. -/
def mkCmd (app_name icon urgency timeout title : Json) (body : String) : List Json :=
  [Json.str "notify-send"]
    ++ (if pyTruthy app_name then [Json.str "-a", app_name] else [])
    ++ (if pyTruthy icon then [Json.str "-i", icon] else [])
    ++ [Json.str "-u", urgency, Json.str "-t", Json.str (pyStr timeout),
        title, Json.str body]

/-- The values `send_notification` derives from the palette and the
plugin arguments before deciding between dry-run and live mode. -/
structure Composed where
  title : Json
  bodyLines : List String
  body : String
  cmd : List Json
  urgency : Json
  timeout : Json
  appName : Json
  icon : Json
  themeStr : String

/-- The composition part of `send_notification` (everything before the
`if dry_run:` branch): settings defaulting, theme label, title, body
lines, body and command.  `none` models a raised Python exception. -/
def compose (palette pluginArgs : List (String × Json)) : Option Composed := do
  let theme_type := dictGet palette "theme_type" (Json.num 0)
  let colors := pyOr (dictGet palette "colours" Json.null) (Json.obj [])
  let allColors := pyOr (dictGet palette "all_colours" Json.null) (Json.arr [])
  let theme_str ← theme_label theme_type
  let urgency := dictGet pluginArgs "urgency" (Json.str "normal")
  let timeout := dictGet pluginArgs "timeout" (Json.num 10000)
  let show_hex := dictGet pluginArgs "show_hex" (Json.bool true)
  let show_count := dictGet pluginArgs "show_count" (Json.bool true)
  let app_name := dictGet pluginArgs "app_name" (Json.str "Tinct")
  let icon := dictGet pluginArgs "icon" (Json.str "preferences-desktop-theme")
  let title := mkTitle theme_str pluginArgs
  let rl ← roleLines colors show_hex role_order
  let cl ← countLines allColors show_count
  let bodyLines := rl ++ cl ++ messageLines pluginArgs
  let body := String.intercalate "\n" bodyLines
  pure ⟨title, bodyLines, body,
    mkCmd app_name icon urgency timeout title body,
    urgency, timeout, app_name, icon, theme_str⟩

/-- Outcome of the external `subprocess.run(cmd, check=True, ...)` call,
supplied as a parameter of the model: normal completion, a
`CalledProcessError` (carrying `str(e)` and the captured stderr), or a
`FileNotFoundError` for a missing binary. -/
inductive ProcResult where
  | success (out errTxt : String)
  | failure (excTxt errTxt : String)
  | notFound

/-- Observable behaviour of one `send_notification` call: lines printed
to stdout and stderr, the argument list handed to `subprocess.run` (if
it was called at all), and whether the function ended in `sys.exit(1)`. -/
structure SendResult where
  stdout : List String
  stderr : List String
  spawned : Option (List String)
  exit1 : Bool

/-- The block printed by dry-run mode, given the composed values and the
space-joined command line. -/
def dryRunStdout (c : Composed) (joined : String) : List String :=
  ["=== DRY-RUN MODE ===",
   "Would send notification with command:",
   "  " ++ joined,
   "\nTitle: " ++ pyStr c.title,
   "Body:\n" ++ c.body,
   "\nSettings:",
   "  Urgency: " ++ pyStr c.urgency,
   "  Timeout: " ++ pyStr c.timeout ++ "ms",
   "  App Name: " ++ pyStr c.appName,
   "  Icon: " ++ pyStr c.icon,
   "==================="]

/-- The stderr lines of the `FileNotFoundError` handler, verbatim. -/
def notFoundStderr : List String :=
  ["✗ Error: notify-send command not found. Please install libnotify.",
   "  Ubuntu/Debian: sudo apt-get install libnotify-bin",
   "  Arch: sudo pacman -S libnotify",
   "  Fedora: sudo dnf install libnotify"]

/-- The whole of `send_notification(palette, plugin_args, dry_run)`.
The external process is abstracted by `runner`; `none` models a raised
(uncaught) Python exception. -/
def send_notification (palette pluginArgs : List (String × Json))
    (dryRun : Json) (runner : List String → ProcResult) : Option SendResult := do
  let c ← compose palette pluginArgs
  if pyTruthy dryRun then do
    let joined ← pyJoinSpace c.cmd
    pure ⟨dryRunStdout c joined, [], none, false⟩
  else do
    let args ← c.cmd.mapM asPyStr
    match runner args with
    | ProcResult.success _ _ =>
      let extra : List String :=
        if pyTruthy (dictGet pluginArgs "verbose" (Json.bool false)) then
          ["  Command: " ++ String.intercalate " " args,
           "  Title: " ++ pyStr c.title,
           "  Icon: " ++ pyStr c.icon,
           "  Colours shown: "
             ++ toString (c.bodyLines.filter (fun l => l.contains ':')).length]
        else []
      pure ⟨"✓ Notification sent successfully" :: extra, [], some args, false⟩
    | ProcResult.failure excTxt errTxt =>
      pure ⟨[],
        ("✗ Error: Failed to send notification: " ++ excTxt)
          :: (if errTxt ≠ "" then ["  stderr: " ++ errTxt] else []),
        some args, true⟩
    | ProcResult.notFound =>
      pure ⟨[], notFoundStderr, some args, true⟩

/-- The `validate_palette` function: returns the boolean result together
with the error lines it prints to stderr. -/
def validate_palette (palette : Json) : Bool × List String :=
  match palette with
  | Json.obj kvs =>
    if (kvs.lookup "colours").isNone && (kvs.lookup "all_colours").isNone then
      (false, ["Error: Invalid palette - missing " ++ squote "colours"
        ++ " or " ++ squote "all_colours" ++ " field"])
    else
      (true, [])
  | _ => (false, ["Error: Invalid palette format - expected JSON object"])

/-- Specification-side acceptance predicate, written from the claim's
words for C2: validation accepts exactly the top-level JSON objects
that contain at least one of the keys `colours` or `all_colours`. -/
def paletteAcceptedSpec (palette : Json) : Bool :=
  match palette with
  | Json.obj kvs => (kvs.lookup "colours").isSome || (kvs.lookup "all_colours").isSome
  | _ => false

/-- The banner `main` prints when verbose mode or dry-run is active. -/
def bannerStdout (pluginArgsVal dryRunVal : Json) : List String :=
  ["\n" ++ String.mk (List.replicate 50 '='),
   "Tinct Notify-Send Plugin v"
     ++ pyStr ((pluginInfo.lookup "version").getD Json.null),
   String.mk (List.replicate 50 '='),
   "Dry-run mode: " ++ pyStr dryRunVal,
   "Plugin args: "
     ++ (if pyTruthy pluginArgsVal then pyJsonDumps pluginArgsVal else "none"),
   String.mk (List.replicate 50 '=') ++ "\n"]

/-- Observable behaviour of one whole run of the plugin process. -/
structure MainResult where
  stdout : List String
  stderr : List String
  exitCode : Nat
  readStdin : Bool
  spawned : Option (List String)

/-- The `main()` entry point (named `mainRun`, since Lean reserves
`main` for executables).  `argv` includes the program name at index
0; `stdin` is the result of `json.load(sys.stdin)` (`Except.error e`
models a `JSONDecodeError` whose text is `e`), consumed only when no
`--plugin-info` flag is given; `runner` abstracts the external process.
`none` models an uncaught exception (nonzero exit). -/
def mainRun (argv : List String) (stdin : Except String Json)
    (runner : List String → ProcResult) : Option MainResult :=
  if (match argv with
      | _ :: a1 :: _ => a1 == "--plugin-info"
      | _ => false) then
    some ⟨[pyJsonDumps (Json.obj pluginInfo)], [], 0, false, none⟩
  else
    match stdin with
    | Except.error e =>
      some ⟨[], ["Error: Failed to parse JSON input: " ++ e], 1, true, none⟩
    | Except.ok paletteData =>
      if !(validate_palette paletteData).1 then
        some ⟨[], (validate_palette paletteData).2, 1, true, none⟩
      else
        match paletteData with
        | Json.obj kvs =>
          let pluginArgsVal := dictGet kvs "plugin_args" (Json.obj [])
          let dryRunVal := dictGet kvs "dry_run" (Json.bool false)
          match pluginArgsVal with
          | Json.obj pkvs =>
            let banner :=
              if pyTruthy (dictGet pkvs "verbose" (Json.bool false))
                  || pyTruthy dryRunVal then
                bannerStdout pluginArgsVal dryRunVal
              else []
            (send_notification kvs pkvs dryRunVal runner).map (fun r =>
              ⟨banner ++ r.stdout, r.stderr,
                if r.exit1 then 1 else 0, true, r.spawned⟩)
          | _ => none
        | _ => none

/-- Byte-wise list prefix test, support for the substring test below. -/
def startsWithL : List Char → List Char → Bool
  | [], _ => true
  | _ :: _, [] => false
  | a :: as, b :: bs => a = b && startsWithL as bs

/-- Does the needle occur in the haystack (as a list of characters)? -/
def strHasAux (needle : List Char) : List Char → Bool
  | [] => needle.isEmpty
  | c :: cs => startsWithL needle (c :: cs) || strHasAux needle cs

/-- Substring test on strings, used to state the metadata-field claim. -/
def strHas (needle hay : String) : Bool := strHasAux needle.data hay.data

/-- Specification-side rendering of one canonical role line, written
from the spec's words for the refinement claim C4: a line appears iff
the role is present in the colour mapping as a record with a non-empty
string hex value, and shows the label and the upper-cased hex. -/
def roleLineSpec (colours : List (String × Json)) (rk rl : String) : Option String :=
  match colours.lookup rk with
  | some (Json.obj kvs) =>
    (match kvs.lookup "hex" with
     | some (Json.str h) =>
       if h = "" then none else some ("  " ++ rl ++ ": " ++ pyUpperStr h)
     | _ => none)
  | _ => none

/-- A colour-role value the composer can process without raising: a
record whose `hex` entry, when present, is a string. -/
def colourRecordOK : Json → Bool
  | Json.obj kvs =>
    (match kvs.lookup "hex" with
     | none => true
     | some (Json.str _) => true
     | some _ => false)
  | _ => false

/-- Sufficient well-typedness of a palette for raise-free composition:
`theme_type` is hashable (not a list/dict), the or-defaulted `colours`
value is a mapping whose canonical-role entries satisfy
`colourRecordOK`, and the or-defaulted `all_colours` value has a
length (is not a number or boolean). -/
def paletteWF (palette : List (String × Json)) : Bool :=
  (match dictGet palette "theme_type" (Json.num 0) with
   | Json.arr _ => false
   | Json.obj _ => false
   | _ => true)
  && (match pyOr (dictGet palette "colours" Json.null) (Json.obj []) with
      | Json.obj cs => role_order.all (fun p =>
          match cs.lookup p.1 with
          | none => true
          | some v => colourRecordOK v)
      | _ => false)
  && (match pyOr (dictGet palette "all_colours" Json.null) (Json.arr []) with
      | Json.num _ => false
      | Json.bool _ => false
      | _ => true)

lemma pyUpperStr_eq_empty_iff (s : String) : pyUpperStr s = "" ↔ s = "" := by
  cases s with
  | mk l =>
    constructor
    · intro h
      have hd : l.map Char.toUpper = ([] : List Char) := by
        simpa [pyUpperStr] using congrArg String.data h
      have hl : l = [] := List.map_eq_nil_iff.mp hd
      subst hl
      rfl
    · intro h
      have hl : l = [] := by simpa using congrArg String.data h
      subst hl
      rfl

lemma compose_inv (palette pluginArgs : List (String × Json)) (c : Composed)
    (hc : compose palette pluginArgs = some c) :
    ∃ ts rl cl,
      theme_label (dictGet palette "theme_type" (Json.num 0)) = some ts ∧
      roleLines (pyOr (dictGet palette "colours" Json.null) (Json.obj []))
        (dictGet pluginArgs "show_hex" (Json.bool true)) role_order = some rl ∧
      countLines (pyOr (dictGet palette "all_colours" Json.null) (Json.arr []))
        (dictGet pluginArgs "show_count" (Json.bool true)) = some cl ∧
      c = ⟨mkTitle ts pluginArgs,
           rl ++ cl ++ messageLines pluginArgs,
           String.intercalate "\n" (rl ++ cl ++ messageLines pluginArgs),
           mkCmd (dictGet pluginArgs "app_name" (Json.str "Tinct"))
             (dictGet pluginArgs "icon" (Json.str "preferences-desktop-theme"))
             (dictGet pluginArgs "urgency" (Json.str "normal"))
             (dictGet pluginArgs "timeout" (Json.num 10000))
             (mkTitle ts pluginArgs)
             (String.intercalate "\n" (rl ++ cl ++ messageLines pluginArgs)),
           dictGet pluginArgs "urgency" (Json.str "normal"),
           dictGet pluginArgs "timeout" (Json.num 10000),
           dictGet pluginArgs "app_name" (Json.str "Tinct"),
           dictGet pluginArgs "icon" (Json.str "preferences-desktop-theme"),
           ts⟩ := by
  cases hts : theme_label (dictGet palette "theme_type" (Json.num 0)) with
  | none => simp [compose, hts] at hc
  | some ts =>
    cases hrl : roleLines (pyOr (dictGet palette "colours" Json.null) (Json.obj []))
        (dictGet pluginArgs "show_hex" (Json.bool true)) role_order with
    | none => simp [compose, hts, hrl] at hc
    | some rl =>
      cases hcl : countLines (pyOr (dictGet palette "all_colours" Json.null) (Json.arr []))
          (dictGet pluginArgs "show_count" (Json.bool true)) with
      | none => simp [compose, hts, hrl, hcl] at hc
      | some cl =>
        have hcompose : compose palette pluginArgs
            = some ⟨mkTitle ts pluginArgs,
                rl ++ cl ++ messageLines pluginArgs,
                String.intercalate "\n" (rl ++ cl ++ messageLines pluginArgs),
                mkCmd (dictGet pluginArgs "app_name" (Json.str "Tinct"))
                  (dictGet pluginArgs "icon" (Json.str "preferences-desktop-theme"))
                  (dictGet pluginArgs "urgency" (Json.str "normal"))
                  (dictGet pluginArgs "timeout" (Json.num 10000))
                  (mkTitle ts pluginArgs)
                  (String.intercalate "\n" (rl ++ cl ++ messageLines pluginArgs)),
                dictGet pluginArgs "urgency" (Json.str "normal"),
                dictGet pluginArgs "timeout" (Json.num 10000),
                dictGet pluginArgs "app_name" (Json.str "Tinct"),
                dictGet pluginArgs "icon" (Json.str "preferences-desktop-theme"),
                ts⟩ := by
          simp [compose, hts, hrl, hcl]
        rw [hcompose] at hc
        exact ⟨ts, rl, cl, rfl, rfl, rfl, (Option.some.inj hc).symm⟩

lemma roleLines_eq_spec (cs : List (String × Json)) (sh : Json) (hsh : pyTruthy sh = true) :
    ∀ (ro : List (String × String)) (lines : List String),
      roleLines (Json.obj cs) sh ro = some lines →
      lines = ro.filterMap (fun p => roleLineSpec cs p.1 p.2) := by
  intro ro
  induction ro with
  | nil =>
    intro lines h
    simp [roleLines] at h
    simp [h.symm]
  | cons p rest ih =>
    obtain ⟨rk, rl⟩ := p
    intro lines h
    cases hl : cs.lookup rk with
    | none =>
      have hp : pyContains rk (Json.obj cs) = some false := by
        simp [pyContains, hl]
      simp only [roleLines, hp, Option.some_bind] at h
      rw [List.filterMap_cons_none]
      · simpa using ih lines (by simpa using h)
      · simp [roleLineSpec, hl]
    | some cd =>
      have hp : pyContains rk (Json.obj cs) = some true := by
        simp [pyContains, hl]
      cases cd with
      | obj kvs =>
        cases hx : kvs.lookup "hex" with
        | none =>
          simp [roleLines, hp, hl, hx, hsh, pySubscript, pyDictGet, pyUpperJ,
            show pyUpperStr "" = "" from rfl, Option.bind_eq_some] at h
          rw [List.filterMap_cons_none]
          · exact ih lines h
          · simp [roleLineSpec, hl, hx]
        | some hv =>
          cases hv with
          | str hs =>
            by_cases hh : hs = ""
            · subst hh
              simp [roleLines, hp, hl, hx, hsh, pySubscript, pyDictGet, pyUpperJ,
                show pyUpperStr "" = "" from rfl, Option.bind_eq_some] at h
              rw [List.filterMap_cons_none]
              · exact ih lines h
              · simp [roleLineSpec, hl, hx]
            · have hne : pyUpperStr hs ≠ "" := fun hcon =>
                hh ((pyUpperStr_eq_empty_iff hs).mp hcon)
              simp [roleLines, hp, hl, hx, hsh, pySubscript, pyDictGet, pyUpperJ,
                hne, Option.bind_eq_some] at h
              obtain ⟨r2, hr2, hlines⟩ := h
              have hspec : roleLineSpec cs rk rl
                  = some ("  " ++ rl ++ ": " ++ pyUpperStr hs) := by
                simp [roleLineSpec, hl, hx, hh]
              rw [← hlines, List.filterMap_cons]
              simp [hspec, ih r2 hr2]
          | null =>
            simp [roleLines, hp, hl, hx, pySubscript, pyDictGet, pyUpperJ,
              Option.bind_eq_some] at h
          | bool b =>
            simp [roleLines, hp, hl, hx, pySubscript, pyDictGet, pyUpperJ,
              Option.bind_eq_some] at h
          | num n =>
            simp [roleLines, hp, hl, hx, pySubscript, pyDictGet, pyUpperJ,
              Option.bind_eq_some] at h
          | arr xs =>
            simp [roleLines, hp, hl, hx, pySubscript, pyDictGet, pyUpperJ,
              Option.bind_eq_some] at h
          | obj kvs2 =>
            simp [roleLines, hp, hl, hx, pySubscript, pyDictGet, pyUpperJ,
              Option.bind_eq_some] at h
      | null =>
        simp [roleLines, hp, hl, pySubscript, pyDictGet, Option.bind_eq_some] at h
      | bool b =>
        simp [roleLines, hp, hl, pySubscript, pyDictGet, Option.bind_eq_some] at h
      | num n =>
        simp [roleLines, hp, hl, pySubscript, pyDictGet, Option.bind_eq_some] at h
      | str s =>
        simp [roleLines, hp, hl, pySubscript, pyDictGet, Option.bind_eq_some] at h
      | arr xs =>
        simp [roleLines, hp, hl, pySubscript, pyDictGet, Option.bind_eq_some] at h

lemma roleLines_isSome (cs : List (String × Json)) (sh : Json) :
    ∀ ro : List (String × String),
      (∀ p ∈ ro, ∀ v, cs.lookup p.1 = some v → colourRecordOK v = true) →
      (roleLines (Json.obj cs) sh ro).isSome = true := by
  intro ro
  induction ro with
  | nil => intro _; simp [roleLines]
  | cons p rest ih =>
    intro h
    obtain ⟨rk, rl⟩ := p
    have hrest : (roleLines (Json.obj cs) sh rest).isSome = true :=
      ih (fun q hq v hv => h q (List.mem_cons_of_mem _ hq) v hv)
    obtain ⟨r, hr⟩ := Option.isSome_iff_exists.mp hrest
    cases hl : cs.lookup rk with
    | none =>
      have hp : pyContains rk (Json.obj cs) = some false := by
        simp [pyContains, hl]
      simp [roleLines, hp, hr]
    | some cd =>
      have hp : pyContains rk (Json.obj cs) = some true := by
        simp [pyContains, hl]
      have hcd : colourRecordOK cd = true := h (rk, rl) (List.mem_cons_self _ _) cd hl
      cases cd with
      | obj kvs =>
        cases hx : kvs.lookup "hex" with
        | none =>
          simp [roleLines, hp, pySubscript, hl, pyDictGet, hx, pyUpperJ, hr]
          split <;> simp
        | some hv =>
          cases hv with
          | str hs =>
            simp [roleLines, hp, pySubscript, hl, pyDictGet, hx, pyUpperJ, hr]
            split <;> simp
          | null => simp [colourRecordOK, hx] at hcd
          | bool b => simp [colourRecordOK, hx] at hcd
          | num n => simp [colourRecordOK, hx] at hcd
          | arr xs => simp [colourRecordOK, hx] at hcd
          | obj kvs2 => simp [colourRecordOK, hx] at hcd
      | null => simp [colourRecordOK] at hcd
      | bool b => simp [colourRecordOK] at hcd
      | num n => simp [colourRecordOK] at hcd
      | str s => simp [colourRecordOK] at hcd
      | arr xs => simp [colourRecordOK] at hcd

lemma countLines_isSome_of (a sc : Json)
    (h : (match a with
          | Json.num _ => false
          | Json.bool _ => false
          | _ => true) = true) :
    (countLines a sc).isSome = true := by
  cases a with
  | num n => simp at h
  | bool b => simp at h
  | null => simp [countLines, pyTruthy]
  | str s => simp [countLines, pyLen]; split <;> simp
  | arr xs => simp [countLines, pyLen]; split <;> simp
  | obj kvs => simp [countLines, pyLen]; split <;> simp



lemma compose_congr (p1 p2 pluginArgs : List (String × Json))
    (ht : dictGet p1 "theme_type" (Json.num 0) = dictGet p2 "theme_type" (Json.num 0))
    (hc : pyOr (dictGet p1 "colours" Json.null) (Json.obj [])
        = pyOr (dictGet p2 "colours" Json.null) (Json.obj []))
    (ha : pyOr (dictGet p1 "all_colours" Json.null) (Json.arr [])
        = pyOr (dictGet p2 "all_colours" Json.null) (Json.arr [])) :
    compose p1 pluginArgs = compose p2 pluginArgs := by
  simp only [compose, ht, hc, ha]

/-- C1 counterexample: the claim says composition succeeds even when a
colour-role value is not a record, but on the palette
`{"colours": {"background": "oops"}}` the access
`colors["background"].get("hex", "")` raises `AttributeError`
(modelled by `none`), so composition does not succeed. -/
theorem C1_counterexample :
    compose [("colours", Json.obj [("background", Json.str "oops")])] [] = none := rfl

/-- C1 (amended): composition of `send_notification` is pure and total
on every palette and configuration whose inspected palette fields are
well typed (`paletteWF`): `theme_type` not a list/object, every
canonical colour-role value a record whose `hex` entry (if any) is a
string, and the or-defaulted `all_colours` value not a number/boolean.
Within that domain absent or empty sub-fields degrade by omission; a
colour-role value that is not a record makes composition raise. -/
theorem C1_compose_total_wf (palette pluginArgs : List (String × Json))
    (h : paletteWF palette = true) :
    (compose palette pluginArgs).isSome = true := by
  unfold paletteWF at h
  rw [Bool.and_eq_true, Bool.and_eq_true] at h
  obtain ⟨⟨h1, h2⟩, h3⟩ := h
  have hts : (theme_label (dictGet palette "theme_type" (Json.num 0))).isSome = true := by
    cases htt : dictGet palette "theme_type" (Json.num 0) with
    | arr xs => rw [htt] at h1; simp at h1
    | obj kvs => rw [htt] at h1; simp at h1
    | null => simp [theme_label, themeMapGet]
    | bool b => simp [theme_label, themeMapGet]
    | num n => simp [theme_label, themeMapGet]
    | str s => simp [theme_label, themeMapGet]
  obtain ⟨ts, hts'⟩ := Option.isSome_iff_exists.mp hts
  have hrl : (roleLines (pyOr (dictGet palette "colours" Json.null) (Json.obj []))
      (dictGet pluginArgs "show_hex" (Json.bool true)) role_order).isSome = true := by
    cases hcol : pyOr (dictGet palette "colours" Json.null) (Json.obj []) with
    | obj cs =>
      rw [hcol] at h2
      apply roleLines_isSome
      intro p hp v hv
      have hall := List.all_eq_true.mp h2 p hp
      rw [hv] at hall
      exact hall
    | null => rw [hcol] at h2; simp at h2
    | bool b => rw [hcol] at h2; simp at h2
    | num n => rw [hcol] at h2; simp at h2
    | str s => rw [hcol] at h2; simp at h2
    | arr xs => rw [hcol] at h2; simp at h2
  obtain ⟨rl, hrl'⟩ := Option.isSome_iff_exists.mp hrl
  have hcl : (countLines (pyOr (dictGet palette "all_colours" Json.null) (Json.arr []))
      (dictGet pluginArgs "show_count" (Json.bool true))).isSome = true :=
    countLines_isSome_of _ _ h3
  obtain ⟨cl, hcl'⟩ := Option.isSome_iff_exists.mp hcl
  simp [compose, hts', hrl', hcl']

/-- Witness for C1's amended theorem at a concrete well-typed palette. -/
theorem C1_compose_total_wf_witness :
    paletteWF [("theme_type", Json.num 1),
        ("colours", Json.obj [("background", Json.obj [("hex", Json.str "#000000")]),
          ("danger", Json.obj [])]),
        ("all_colours", Json.arr [Json.obj []])] = true
    ∧ (compose [("theme_type", Json.num 1),
        ("colours", Json.obj [("background", Json.obj [("hex", Json.str "#000000")]),
          ("danger", Json.obj [])]),
        ("all_colours", Json.arr [Json.obj []])] []).isSome = true :=
  ⟨rfl, C1_compose_total_wf _ [] rfl⟩

/-- C5: the theme label resolved by `send_notification` is "Auto" for
`theme_type` 0, "Dark" for 1, "Light" for 2, and exactly "Unknown"
for every other integer. -/
theorem C5_theme_label_cases (n : Int) :
    theme_label (Json.num n)
      = some (if n = 0 then "Auto" else if n = 1 then "Dark"
          else if n = 2 then "Light" else "Unknown") := by
  by_cases h0 : n = 0
  · subst h0; decide
  · by_cases h1 : n = 1
    · subst h1; decide
    · by_cases h2 : n = 2
      · subst h2; decide
      · simp [theme_label, themeMapGet, h0, h1, h2,
          show pyTitle "unknown" = "Unknown" from rfl]

/-- C2: validation accepts exactly the top-level JSON objects with at
least one of the keys `colours` or `all_colours` (proven as an equality
with the claim's acceptance predicate over every input); every rejected
input makes the run exit 1 with the validator's diagnostic and no
spawn; in particular the empty object is rejected with the
missing-field error, while `{"colours": {}}` passes validation,
composes without error, and a full run on it exits 0. -/
theorem C2_validation (palette : Json) (runner : List String → ProcResult) :
    (validate_palette palette).1 = paletteAcceptedSpec palette
    ∧ (paletteAcceptedSpec palette = false →
        mainRun ["plugin"] (Except.ok palette) runner
          = some ⟨[], (validate_palette palette).2, 1, true, none⟩)
    ∧ mainRun ["plugin"] (Except.ok (Json.obj [])) runner
        = some ⟨[], ["Error: Invalid palette - missing " ++ squote "colours"
            ++ " or " ++ squote "all_colours" ++ " field"], 1, true, none⟩
    ∧ (validate_palette (Json.obj [("colours", Json.obj [])])).1 = true
    ∧ (compose [("colours", Json.obj [])] []).isSome = true
    ∧ mainRun ["plugin"] (Except.ok (Json.obj [("colours", Json.obj [])]))
          (fun _ => ProcResult.success "" "")
        = some ⟨["✓ Notification sent successfully"], [], 0, true,
            some ["notify-send", "-a", "Tinct", "-i", "preferences-desktop-theme",
              "-u", "normal", "-t", "10000",
              "Tinct Colour Palette (Auto Theme)", ""]⟩ := by
  have hval : (validate_palette palette).1 = paletteAcceptedSpec palette := by
    cases palette with
    | obj kvs =>
      cases hc : kvs.lookup "colours" <;> cases ha : kvs.lookup "all_colours" <;>
        simp [validate_palette, paletteAcceptedSpec, hc, ha]
    | null => rfl
    | bool b => rfl
    | num n => rfl
    | str s => rfl
    | arr xs => rfl
  refine ⟨hval, ?_, rfl, rfl, rfl, rfl⟩
  intro hrej
  have hfalse : (validate_palette palette).1 = false := hval.trans hrej
  simp [mainRun, hfalse]

/-- Witness for C2 at a rejected input: a top-level array fails the
acceptance predicate and the run exits 1 with the format diagnostic. -/
theorem C2_validation_witness :
    mainRun ["plugin"] (Except.ok (Json.arr [])) (fun _ => ProcResult.notFound)
      = some ⟨[], ["Error: Invalid palette format - expected JSON object"],
          1, true, none⟩ :=
  (C2_validation (Json.arr []) (fun _ => ProcResult.notFound)).2.1 rfl

/-- C10: a palette whose `colours` (or `all_colours`) key is bound to
null passes validation on key presence alone, and composition treats
the null exactly like an empty mapping (resp. empty list), succeeding
instead of failing. -/
theorem C10_null_colour_fields (rest pluginArgs : List (String × Json)) :
    (validate_palette (Json.obj (("colours", Json.null) :: rest))).1 = true
    ∧ (validate_palette (Json.obj (("all_colours", Json.null) :: rest))).1 = true
    ∧ compose (("colours", Json.null) :: rest) pluginArgs
        = compose (("colours", Json.obj []) :: rest) pluginArgs
    ∧ compose (("all_colours", Json.null) :: rest) pluginArgs
        = compose (("all_colours", Json.arr []) :: rest) pluginArgs
    ∧ (compose [("colours", Json.null)] []).isSome = true := by
  exact ⟨by simp [validate_palette], by simp [validate_palette],
    compose_congr _ _ _ rfl rfl rfl, compose_congr _ _ _ rfl rfl rfl, rfl⟩

/-- C7: with the metadata flag as the sole argument the adapter prints
the fixed JSON descriptor (which contains the literal fields `name`,
`type`, `version` and `enabled`), exits 0, never reads standard input
and never spawns a process — for every stdin content and runner. -/
theorem C7_plugin_info (stdin : Except String Json) (runner : List String → ProcResult) :
    mainRun ["plugin", "--plugin-info"] stdin runner
        = some ⟨["\x7b\n  \"name\": \"notify-send\",\n  \"type\": \"output\",\n  \"version\": \"1.0.1\",\n  \"description\": \"Send desktop notifications with colour palette information\",\n  \"enabled\": false,\n  \"author\": \"Tinct Contributors\",\n  \"requires\": [\n    \"notify-send\"\n  ]\n\x7d"],
            [], 0, false, none⟩
    ∧ strHas "\"name\"" (pyJsonDumps (Json.obj pluginInfo)) = true
    ∧ strHas "\"type\"" (pyJsonDumps (Json.obj pluginInfo)) = true
    ∧ strHas "\"version\"" (pyJsonDumps (Json.obj pluginInfo)) = true
    ∧ strHas "\"enabled\"" (pyJsonDumps (Json.obj pluginInfo)) = true :=
  ⟨rfl, by decide, by decide, by decide, by decide⟩

/-- C3: an explicit `title` in the configuration is used verbatim,
overriding any `title_prefix` (even when both are present); otherwise
the title is the prefix-extended standard title when the prefix is a
non-empty string and the plain standard title when it is empty or
absent.  The third conjunct ties `mkTitle` to the composed
notification's title. -/
theorem C3_title_resolution (pluginArgs : List (String × Json)) (theme_str p : String)
    (hp : dictGet pluginArgs "title_prefix" (Json.str "") = Json.str p) :
    (∀ v, pluginArgs.lookup "title" = some v → mkTitle theme_str pluginArgs = v)
    ∧ (pluginArgs.lookup "title" = none →
        mkTitle theme_str pluginArgs
          = Json.str (if p = "" then "Tinct Colour Palette (" ++ theme_str ++ " Theme)"
              else p ++ " Tinct Colour Palette (" ++ theme_str ++ " Theme)"))
    ∧ (∀ (palette pa : List (String × Json)) (c : Composed),
        compose palette pa = some c → c.title = mkTitle c.themeStr pa) := by
  refine ⟨?_, ?_, ?_⟩
  · intro v hv
    simp [mkTitle, hv]
  · intro hnone
    simp only [mkTitle, hp, hnone]
    by_cases hp0 : p = ""
    · subst hp0; simp [pyTruthy, pyStr]
    · simp [pyTruthy, pyStr, hp0]
  · intro palette pa c hc
    obtain ⟨ts, rl, cl, hts, hrl, hcl, hceq⟩ := compose_inv palette pa c hc
    subst hceq
    rfl

/-- Witness for C3 at a configuration supplying both `title` and
`title_prefix`: the explicit title wins verbatim. -/
theorem C3_title_resolution_witness :
    mkTitle "Dark" [("title", Json.str "Override"), ("title_prefix", Json.str "P")]
      = Json.str "Override" :=
  (C3_title_resolution [("title", Json.str "Override"), ("title_prefix", Json.str "P")]
    "Dark" "P" rfl).1 _ rfl

/-- C4: whenever `show_hex` is truthy and the role-line loop completes,
its output is exactly the canonical-order filter of the colour mapping:
one line `"  <label>: <HEX>"` (hex upper-cased) per canonical role
present with a non-empty hex, roles absent or with empty hex yielding
no line, independent of the mapping's own key order. -/
theorem C4_role_lines_canonical (cs : List (String × Json)) (sh : Json)
    (lines : List String) (hsh : pyTruthy sh = true)
    (h : roleLines (Json.obj cs) sh role_order = some lines) :
    lines = role_order.filterMap (fun p => roleLineSpec cs p.1 p.2) :=
  roleLines_eq_spec cs sh hsh role_order lines h

/-- Witness for C4: a palette listing `accent1` before `background`
still renders `Background` first, upper-casing both hex values. -/
theorem C4_role_lines_canonical_witness :
    roleLines (Json.obj [("accent1", Json.obj [("hex", Json.str "#ff0000")]),
        ("background", Json.obj [("hex", Json.str "#abc123")])])
      (Json.bool true) role_order
      = some ["  Background: #ABC123", "  Accent 1: #FF0000"]
    ∧ ["  Background: #ABC123", "  Accent 1: #FF0000"]
      = role_order.filterMap (fun p => roleLineSpec
          [("accent1", Json.obj [("hex", Json.str "#ff0000")]),
           ("background", Json.obj [("hex", Json.str "#abc123")])] p.1 p.2) :=
  ⟨rfl, C4_role_lines_canonical _ (Json.bool true) _ rfl rfl⟩

/-- C6 counterexample: a palette that passes validation and has
`dry_run` set can still make the adapter raise (exit nonzero): a
colour-role value that is not a record aborts composition before the
dry-run branch, so dry-run does not always exit 0 as claimed. -/
theorem C6_counterexample :
    (validate_palette (Json.obj [("colours", Json.obj [("background", Json.str "oops")]),
        ("dry_run", Json.bool true)])).1 = true
    ∧ send_notification [("colours", Json.obj [("background", Json.str "oops")]),
        ("dry_run", Json.bool true)] [] (Json.bool true)
        (fun _ => ProcResult.notFound) = none :=
  ⟨rfl, rfl⟩

/-- C6 (amended): with `dry_run` truthy the adapter's behaviour never
depends on the external runner (no process is started), and whenever
composition succeeds and the composed command consists of strings, it
returns normally (exit 0) after printing the dry-run block: the
space-joined command, the title, the body and the settings. -/
theorem C6_dry_run_behaviour (palette pluginArgs : List (String × Json)) (dr : Json)
    (hdr : pyTruthy dr = true) :
    (∀ r1 r2 : List String → ProcResult,
        send_notification palette pluginArgs dr r1
          = send_notification palette pluginArgs dr r2)
    ∧ (∀ (runner : List String → ProcResult) (c : Composed) (j : String),
        compose palette pluginArgs = some c → pyJoinSpace c.cmd = some j →
        send_notification palette pluginArgs dr runner
          = some ⟨dryRunStdout c j, [], none, false⟩) := by
  constructor
  · intro r1 r2
    cases hc : compose palette pluginArgs with
    | none => simp [send_notification, hc]
    | some c => simp [send_notification, hc, hdr]
  · intro runner c j hc hj
    simp [send_notification, hc, hdr, hj]

/-- Witness for C6's amended theorem: a dry run on a minimal valid
palette prints the dry-run block and returns without spawning. -/
theorem C6_dry_run_behaviour_witness :
    send_notification [("colours", Json.obj [])] [] (Json.bool true)
        (fun _ => ProcResult.notFound)
      = some ⟨dryRunStdout
          ⟨Json.str "Tinct Colour Palette (Auto Theme)", [], "",
           [Json.str "notify-send", Json.str "-a", Json.str "Tinct",
            Json.str "-i", Json.str "preferences-desktop-theme",
            Json.str "-u", Json.str "normal", Json.str "-t", Json.str "10000",
            Json.str "Tinct Colour Palette (Auto Theme)", Json.str ""],
           Json.str "normal", Json.num 10000, Json.str "Tinct",
           Json.str "preferences-desktop-theme", "Auto"⟩
          "notify-send -a Tinct -i preferences-desktop-theme -u normal -t 10000 Tinct Colour Palette (Auto Theme) ",
          [], none, false⟩ :=
  (C6_dry_run_behaviour [("colours", Json.obj [])] [] (Json.bool true) rfl).2
    (fun _ => ProcResult.notFound) _ _ rfl rfl

/-- C8: the composed external command is exactly the ordered sequence
`[notify-send, -a app, -i icon, -u urgency, -t str(timeout), title,
body]`, where the `-a`/`-i` pairs appear only for non-empty `app_name`
and `icon`. -/
theorem C8_command_structure (palette pluginArgs : List (String × Json)) (c : Composed)
    (hc : compose palette pluginArgs = some c) (an ic : String)
    (han : c.appName = Json.str an) (hic : c.icon = Json.str ic) :
    c.cmd = [Json.str "notify-send"]
      ++ (if an = "" then [] else [Json.str "-a", Json.str an])
      ++ (if ic = "" then [] else [Json.str "-i", Json.str ic])
      ++ [Json.str "-u", c.urgency, Json.str "-t", Json.str (pyStr c.timeout),
          c.title, Json.str c.body] := by
  obtain ⟨ts, rl, cl, hts, hrl, hcl, hceq⟩ := compose_inv palette pluginArgs c hc
  subst hceq
  simp only at han hic
  by_cases h1 : an = "" <;> by_cases h2 : ic = "" <;>
    simp [mkCmd, pyTruthy, han, hic, h1, h2]

/-- Witness for C8 on an empty configuration: the default app name and
icon are non-empty, so both optional pairs appear. -/
theorem C8_command_structure_witness :
    (compose [("colours", Json.obj [])] []).map Composed.cmd
      = some [Json.str "notify-send", Json.str "-a", Json.str "Tinct",
          Json.str "-i", Json.str "preferences-desktop-theme", Json.str "-u",
          Json.str "normal", Json.str "-t", Json.str "10000",
          Json.str "Tinct Colour Palette (Auto Theme)", Json.str ""] := by
  have h := C8_command_structure [("colours", Json.obj [])] []
    ⟨Json.str "Tinct Colour Palette (Auto Theme)", [], "",
     [Json.str "notify-send", Json.str "-a", Json.str "Tinct",
      Json.str "-i", Json.str "preferences-desktop-theme",
      Json.str "-u", Json.str "normal", Json.str "-t", Json.str "10000",
      Json.str "Tinct Colour Palette (Auto Theme)", Json.str ""],
     Json.str "normal", Json.num 10000, Json.str "Tinct",
     Json.str "preferences-desktop-theme", "Auto"⟩
    rfl "Tinct" "preferences-desktop-theme" rfl rfl
  calc (compose [("colours", Json.obj [])] []).map Composed.cmd
      = some ((⟨Json.str "Tinct Colour Palette (Auto Theme)", [], "",
          [Json.str "notify-send", Json.str "-a", Json.str "Tinct",
           Json.str "-i", Json.str "preferences-desktop-theme",
           Json.str "-u", Json.str "normal", Json.str "-t", Json.str "10000",
           Json.str "Tinct Colour Palette (Auto Theme)", Json.str ""],
          Json.str "normal", Json.num 10000, Json.str "Tinct",
          Json.str "preferences-desktop-theme", "Auto"⟩ : Composed).cmd) := rfl
    _ = some [Json.str "notify-send", Json.str "-a", Json.str "Tinct",
          Json.str "-i", Json.str "preferences-desktop-theme", Json.str "-u",
          Json.str "normal", Json.str "-t", Json.str "10000",
          Json.str "Tinct Colour Palette (Auto Theme)", Json.str ""] := by rw [h]; rfl

/-- C9: whenever composition succeeds and the or-defaulted
`all_colours` value is a sequence, the body lines are the role lines
followed by exactly one blank-line-prefixed count line reporting the
sequence's length when it is non-empty and `show_count` is truthy, and
by no count line otherwise, followed by the optional message line. -/
theorem C9_count_line (palette pluginArgs : List (String × Json)) (c : Composed)
    (xs : List Json) (hc : compose palette pluginArgs = some c)
    (hx : pyOr (dictGet palette "all_colours" Json.null) (Json.arr []) = Json.arr xs) :
    ∃ rl, roleLines (pyOr (dictGet palette "colours" Json.null) (Json.obj []))
        (dictGet pluginArgs "show_hex" (Json.bool true)) role_order = some rl
      ∧ c.bodyLines = rl
          ++ (if !xs.isEmpty && pyTruthy (dictGet pluginArgs "show_count" (Json.bool true))
              then ["\nTotal colours extracted: " ++ toString xs.length] else [])
          ++ messageLines pluginArgs := by
  obtain ⟨ts, rl, cl, hts, hrl, hcl, hceq⟩ := compose_inv palette pluginArgs c hc
  subst hceq
  refine ⟨rl, hrl, ?_⟩
  rw [hx] at hcl
  have hcl' : (if !xs.isEmpty && pyTruthy (dictGet pluginArgs "show_count" (Json.bool true))
      then some ["\nTotal colours extracted: " ++ toString xs.length]
      else some ([] : List String)) = some cl := by
    rw [← hcl]
    simp only [countLines, pyTruthy, pyLen]
    split <;> simp
  cases hb : !xs.isEmpty && pyTruthy (dictGet pluginArgs "show_count" (Json.bool true)) with
  | false =>
    rw [hb] at hcl'
    simp only [if_neg Bool.false_ne_true] at hcl'
    simp [Option.some.inj hcl', hb]
  | true =>
    rw [hb] at hcl'
    simp only [if_pos rfl] at hcl'
    simp [Option.some.inj hcl', hb]

/-- Witness for C9: five entries in `all_colours` produce exactly the
count line reporting 5. -/
theorem C9_count_line_witness :
    ∃ rl, roleLines (pyOr (dictGet [("colours", Json.obj []),
          ("all_colours", Json.arr [Json.null, Json.null, Json.null, Json.null, Json.null])]
          "colours" Json.null) (Json.obj []))
        (dictGet [] "show_hex" (Json.bool true)) role_order = some rl
      ∧ (⟨Json.str "Tinct Colour Palette (Auto Theme)",
          ["\nTotal colours extracted: 5"], "\nTotal colours extracted: 5",
          [Json.str "notify-send", Json.str "-a", Json.str "Tinct",
           Json.str "-i", Json.str "preferences-desktop-theme",
           Json.str "-u", Json.str "normal", Json.str "-t", Json.str "10000",
           Json.str "Tinct Colour Palette (Auto Theme)",
           Json.str "\nTotal colours extracted: 5"],
          Json.str "normal", Json.num 10000, Json.str "Tinct",
          Json.str "preferences-desktop-theme", "Auto"⟩ : Composed).bodyLines
        = rl
          ++ (if !([Json.null, Json.null, Json.null, Json.null, Json.null] : List Json).isEmpty
                && pyTruthy (dictGet [] "show_count" (Json.bool true))
              then ["\nTotal colours extracted: "
                ++ toString ([Json.null, Json.null, Json.null, Json.null, Json.null] : List Json).length]
              else [])
          ++ messageLines [] :=
  C9_count_line [("colours", Json.obj []),
      ("all_colours", Json.arr [Json.null, Json.null, Json.null, Json.null, Json.null])]
    [] _ [Json.null, Json.null, Json.null, Json.null, Json.null] rfl rfl
